import Mathlib

/-!
# Verification model of the fluent-logger-node sender

A shallow embedding of `src/lib/sender.js` (the `FluentSender` event-forwarding
engine).  JavaScript runtime values are modelled only as far as the sender
inspects them (`typeof` checks, truthiness of option values); asynchronous
callbacks are modelled as explicit action traces; the scheduler's
`process.nextTick` re-entries are modelled as explicit continuation flags or
as structural recursion on the queue.  Randomness (the `chunk` identifier) and
the current time are passed in as oracle parameters.
-/

namespace FluentSenderModel

/-- JavaScript runtime values, as far as `sender.js` inspects them.  The sender
only ever applies `typeof` to the `data` payload, so object/array contents are
not modelled. -/
inductive JsValue where
  | vString (s : String)
  | vNumber (n : Int)
  | vBool (b : Bool)
  | vNull
  | vUndefined
  | vObject
  | vArray
  | vFunction
deriving DecidableEq

/-- JavaScript's `typeof` operator restricted to `JsValue`.  Note the
well-known language quirk: `typeof null` evaluates to `"object"`. -/
def jsTypeof : JsValue → String
  | .vString _ => "string"
  | .vNumber _ => "number"
  | .vBool _ => "boolean"
  | .vNull => "object"
  | .vUndefined => "undefined"
  | .vObject => "object"
  | .vArray => "object"
  | .vFunction => "function"

/-- JavaScript primitive values (non-composite): strings, numbers, booleans,
`null` and `undefined`. -/
def isPrimitive : JsValue → Bool
  | .vString _ => true
  | .vNumber _ => true
  | .vBool _ => true
  | .vNull => true
  | .vUndefined => true
  | .vObject => false
  | .vArray => false
  | .vFunction => false

/-- JavaScript truthiness of an optional string (`undefined` and the empty
string are falsy, every other string is truthy). -/
def truthyStr : Option String → Bool
  | none => false
  | some s => s ≠ ""

/-- Tag resolution from `_makePacketItem` (src/lib/sender.js:112-119):
`var tag = null; if (this.tag_prefix && label) tag = [this.tag_prefix, label].join('.');
else if (this.tag_prefix) tag = this.tag_prefix; else if (label) tag = label;`.
`none` models JavaScript `null`. -/
def resolveTag (tagPrefix label : Option String) : Option String :=
  if truthyStr tagPrefix && truthyStr label then
    some (tagPrefix.getD "" ++ "." ++ label.getD "")
  else if truthyStr tagPrefix then tagPrefix
  else if truthyStr label then label
  else none

/-- One queued unit of work (`PendingItem` in the spec), as built by
`_makePacketItem` and enriched with `item.callback = callback` by `emit`
(src/lib/sender.js:133-139 and 71).  The msgpack byte encoding of the packet
is not modelled (no claim concerns the byte level); `chunk` is
`options.chunk` when acknowledgment is required, `none` otherwise.
`hasCallback` records whether a per-call callback was attached. -/
structure PendingItem where
  tag : Option String
  time : Int
  data : JsValue
  chunk : Option String
  hasCallback : Bool
deriving DecidableEq

/-- `_makePacketItem` (src/lib/sender.js:111-140).  `time` is passed already
resolved to a number (the resolution logic at lines 121-123 reads the clock
and is outside every claim); `freshChunk` is the oracle for
`crypto.randomBytes(16).toString('base64')`.  The callback is not attached
here (the source sets `item.callback` later, in `emit`, after validation). -/
def makePacketItem (tagPrefix label : Option String) (data : JsValue) (time : Int)
    (requireAckResponse : Bool) (freshChunk : String) : PendingItem :=
  { tag := resolveTag tagPrefix label
    time := time
    data := data
    chunk := if requireAckResponse then some freshChunk else none
    hasCallback := false }

/-- The error taxonomy of `logger-error` as raised by `sender.js`. -/
inductive FluentError where
  | missingTag
  | dataTypeError
  | responseError (ack : Option String) (chunk : Option String)
  | responseTimeout
deriving DecidableEq

/-- One observable dispatch action: a per-call callback invocation (with its
argument, `none` for a no-argument call) or an `_eventEmitter.emit` broadcast
carrying the signal name and payload. -/
inductive DispatchAction where
  | callbackCall (arg : Option FluentError)
  | emitEvent (signal : String) (arg : Option FluentError)
deriving DecidableEq

/-- `_handleEvent` (src/lib/sender.js:230-235):
`callback && callback(data); if (this._eventEmitter.listenerCount(signal) > 0)
this._eventEmitter.emit(signal, data);` — returned as the ordered list of
actions it performs. -/
def handleEvent (signal : String) (payload : Option FluentError) (hasCallback : Bool)
    (listenerCount : Nat) : List DispatchAction :=
  (if hasCallback then [DispatchAction.callbackCall payload] else []) ++
  (if listenerCount > 0 then [DispatchAction.emitEvent signal payload] else [])

/-- Outcome of one `emit` call: either a synchronous validation failure (the
error raised and the dispatch actions `_handleEvent` performed, the queue
untouched and `_connect` never called), or the item was pushed onto
`_sendQueue` and `_connect(() => this._flushSendQueue())` was initiated. -/
inductive EmitOutcome where
  | validationError (e : FluentError) (dispatched : List DispatchAction)
  | enqueuedAndConnecting
deriving DecidableEq

/-- `emit` after argument parsing (src/lib/sender.js:47-77): build the packet
item; if `item.tag === null` raise `MissingTag`; else if
`typeof item.data !== 'object'` raise `DataTypeError`; otherwise attach the
callback, push onto `_sendQueue` and connect-then-flush.  Returns the new
queue and the outcome. -/
def emitStep (tagPrefix label : Option String) (data : JsValue) (time : Int)
    (requireAckResponse : Bool) (freshChunk : String) (hasCallback : Bool)
    (listenerCount : Nat) (queue : List PendingItem) :
    List PendingItem × EmitOutcome :=
  let item := makePacketItem tagPrefix label data time requireAckResponse freshChunk
  if item.tag = none then
    (queue, EmitOutcome.validationError FluentError.missingTag
      (handleEvent "error" (some FluentError.missingTag) hasCallback listenerCount))
  else if jsTypeof item.data ≠ "object" then
    (queue, EmitOutcome.validationError FluentError.dataTypeError
      (handleEvent "error" (some FluentError.dataTypeError) hasCallback listenerCount))
  else
    (queue ++ [{ item with hasCallback := hasCallback }],
      EmitOutcome.enqueuedAndConnecting)

/-- The socket as far as the flush path inspects it: only its `writable`
flag. -/
structure JsSocket where
  writable : Bool
deriving DecidableEq

/-- Possible outcomes of the `process.nextTick` body inside `_flushSendQueue`
(src/lib/sender.js:179-190). -/
inductive FlushTickOutcome where
  | abortFlagCleared
  | runDoFlush
  | retryWritabilityCheckLater
  | throwReferenceError (ident : String)
deriving DecidableEq

/-- The `process.nextTick` body of `_flushSendQueue`
(src/lib/sender.js:179-190): `if (!this._socket) { this._flushingSendQueue =
false; return; } if (this._socket.writable) { this._doFlushSendQueue(); } else
{ process.nextTick(waitToWrite); }`.  The identifier `waitToWrite` has no
binding anywhere in `sender.js`; reading an undeclared identifier in
JavaScript throws a `ReferenceError`, so the non-writable branch throws
instead of scheduling any retry.  `retryWritabilityCheckLater` is never
produced; it is included so that the absence of a retry is expressible. -/
def flushSendQueueTick (socket : Option JsSocket) : FlushTickOutcome :=
  match socket with
  | none => FlushTickOutcome.abortFlagCleared
  | some s =>
    if s.writable then FlushTickOutcome.runDoFlush
    else FlushTickOutcome.throwReferenceError "waitToWrite"

/-- Sender state as seen by the flush guard, the ack-timeout handler and the
reconnect supervisor's error listener. -/
structure LoopState where
  queue : List PendingItem
  flushingSendQueue : Bool
  socket : Option JsSocket
deriving DecidableEq

/-- The synchronous part of `_flushSendQueue` (src/lib/sender.js:174-178):
`if (this._flushingSendQueue) return; this._flushingSendQueue = true;
process.nextTick(...)`.  Returns the new state and whether the tick body was
scheduled. -/
def flushSendQueueCall (s : LoopState) : LoopState × Bool :=
  if s.flushingSendQueue then (s, false)
  else ({ s with flushingSendQueue := true }, true)

/-- One observable wire event of the flush loop: a `socket.write` of an item's
packet, or the completion of that write (the write callback having run to the
point where the loop may continue — for the ack path, the matching response
having been handled). -/
inductive WireEvent where
  | write (item : PendingItem)
  | writeCompleted (item : PendingItem)
deriving DecidableEq

/-- A full run of `_doFlushSendQueue` (src/lib/sender.js:193-228) on a
writable socket, in an execution where every `socket.write` completion
callback fires and, when acknowledgment is required, a response arrives before
the timeout: `var item = this._sendQueue.shift(); if (item === undefined)
{ this._flushingSendQueue = false; } else { this._socket.write(..., () =>
{ ... process.nextTick(() => { this._doFlushSendQueue(); }); }); }` — the head
item is shifted and written, and only inside that item's completion
continuation does the loop re-enter for the next item.  Returns the wire
trace and the final `_flushingSendQueue` flag. -/
def doFlushSendQueueRun : List PendingItem → List WireEvent × Bool
  | [] => ([], false)
  | item :: rest =>
    (WireEvent.write item :: WireEvent.writeCompleted item ::
      (doFlushSendQueueRun rest).1,
     (doFlushSendQueueRun rest).2)

/-- The items written on the wire, in order, in a wire trace. -/
def writesOf (trace : List WireEvent) : List PendingItem :=
  trace.filterMap fun e =>
    match e with
    | WireEvent.write i => some i
    | WireEvent.writeCompleted _ => none

/-- Checks that, starting from `inFlight` outstanding unacknowledged writes,
every `write` in the trace happens only while no other write is outstanding
(single-item pipelining). -/
def atMostOneInFlight : List WireEvent → Nat → Bool
  | [], _ => true
  | WireEvent.write _ :: rest, inFlight =>
    decide (inFlight = 0) && atMostOneInFlight rest (inFlight + 1)
  | WireEvent.writeCompleted _ :: rest, inFlight =>
    atMostOneInFlight rest (inFlight - 1)

/-- The one-shot `'data'` handler armed by `_doFlushSendQueue` when
`requireAckResponse` is set (src/lib/sender.js:202-214):
`timeoutId && clearTimeout(timeoutId); var response = msgpack.decode(data ...);
if (response.ack !== item.options.chunk) { var error = new ResponseError(...);
this._handleEvent('error', error, item.callback); } item.callback &&
item.callback(); process.nextTick(() => { this._doFlushSendQueue(); });`.
`respAck` is the decoded response's `ack` field (`none` when absent), `chunk`
the item's chunk identifier.  Returns the ordered dispatch actions and whether
the loop continues with the next item (always `true` here). -/
def ackDataHandler (respAck chunk : Option String) (hasCallback : Bool)
    (listenerCount : Nat) : List DispatchAction × Bool :=
  let errActions :=
    if respAck ≠ chunk then
      handleEvent "error" (some (FluentError.responseError respAck chunk))
        hasCallback listenerCount
    else []
  (errActions ++ (if hasCallback then [DispatchAction.callbackCall none] else []),
   true)

/-- The write-completion path when acknowledgment is disabled
(src/lib/sender.js:219-224): `item.callback && item.callback();
process.nextTick(() => { this._doFlushSendQueue(); });`. -/
def noAckWriteCompletion (hasCallback : Bool) : List DispatchAction × Bool :=
  ((if hasCallback then [DispatchAction.callbackCall none] else []), true)

/-- The ack-timeout callback armed by `_doFlushSendQueue`
(src/lib/sender.js:215-218).  Its whole body is `var error = new
ResponseTimeout('ack response timeout'); this._handleEvent('error', error,
item.callback);`: it dispatches, leaves the sender state untouched, and
schedules no further flush step.  Returns the unchanged state, the dispatch
actions, and whether the loop continues (`false`). -/
def ackTimeoutFire (s : LoopState) (hasCallback : Bool) (listenerCount : Nat) :
    LoopState × List DispatchAction × Bool :=
  (s, handleEvent "error" (some FluentError.responseTimeout) hasCallback listenerCount,
   false)

/-- Whether a dispatch action is a per-call callback invocation. -/
def isCallbackCall : DispatchAction → Bool
  | DispatchAction.callbackCall _ => true
  | DispatchAction.emitEvent _ _ => false

/-- Number of per-call callback invocations in a dispatch trace. -/
def callbackCallCount (actions : List DispatchAction) : Nat :=
  (actions.filter isCallbackCall).length

/-- Constructor handling of the `reconnectInterval` option
(src/lib/sender.js:22): `this.reconnectInterval = options.reconnectInterval ||
600000;` — JavaScript `||` takes the right operand when the left is falsy
(for a number: `0`; `none` models an absent option, i.e. `undefined`). -/
def mkReconnectInterval (optionValue : Option Int) : Int :=
  match optionValue with
  | some v => if v ≠ 0 then v else 600000
  | none => 600000

/-- The guard of `_setupErrorHandler` (src/lib/sender.js:238-240):
`if (!this.reconnectInterval) { return; }` — the `error` listener is installed
exactly when the stored interval is truthy (a nonzero number). -/
def setupErrorHandlerInstalls (reconnectInterval : Int) : Bool :=
  reconnectInterval ≠ 0

/-- What the reconnect supervisor's `error` listener does on each `error`
event (src/lib/sender.js:241-251): sets `this._flushingSendQueue = false`,
logs, and arms `setTimeout(() => { ... this._connect(...) },
this.reconnectInterval)`. -/
structure ReconnectEffect where
  resetFlushing : Bool
  delayMs : Int
  reconnects : Bool
deriving DecidableEq

/-- The body of the supervisor's `error` listener
(src/lib/sender.js:241-251), as its effect description. -/
def errorListenerEffect (reconnectInterval : Int) : ReconnectEffect :=
  { resetFlushing := true, delayMs := reconnectInterval, reconnects := true }

/-- The supervisor's `error` listener applied to the sender state: line 242
sets `this._flushingSendQueue = false` (queue and socket untouched by the
listener itself). -/
def supervisorErrorListenerState (s : LoopState) : LoopState :=
  { s with flushingSendQueue := false }

/-! ## Helper lemmas -/

theorem callbackCallCount_append (a b : List DispatchAction) :
    callbackCallCount (a ++ b) = callbackCallCount a + callbackCallCount b := by
  simp [callbackCallCount, List.filter_append]

theorem callbackCallCount_handleEvent (signal : String) (payload : Option FluentError)
    (hasCallback : Bool) (listenerCount : Nat) :
    callbackCallCount (handleEvent signal payload hasCallback listenerCount) =
      if hasCallback then 1 else 0 := by
  cases hasCallback <;> rcases Nat.eq_zero_or_pos listenerCount with h | h <;>
    simp [handleEvent, callbackCallCount, isCallbackCall, h, Nat.pos_iff_ne_zero.mp]

/-! ## Claims -/

/-- C1: the claim says that a flush started while a socket exists but is not
writable retries the writability check on a later scheduling turn and does not
fail.  In the code, the non-writable branch of `_flushSendQueue`
(src/lib/sender.js:188) executes `process.nextTick(waitToWrite)` where
`waitToWrite` is an unbound identifier, so it throws a `ReferenceError`
instead; no execution of the tick body produces a retry. -/
theorem flush_nonwritable_throws_not_retries :
    flushSendQueueTick (some { writable := false }) =
      FlushTickOutcome.throwReferenceError "waitToWrite" ∧
    ∀ socket : Option JsSocket,
      flushSendQueueTick socket ≠ FlushTickOutcome.retryWritabilityCheckLater := by
  refine ⟨rfl, ?_⟩
  intro socket
  match socket with
  | none => simp [flushSendQueueTick]
  | some s => cases hs : s.writable <;> simp [flushSendQueueTick, hs]

/-- C2 counterexample: with acknowledgment enabled, a response whose `ack`
differs from the item's `chunk` makes the data handler invoke the per-call
callback twice — once with the `ResponseError` (through `_handleEvent`,
line 208) and once with no argument (line 210) — refuting "never more than
once". -/
theorem callback_twice_on_ack_mismatch :
    callbackCallCount (ackDataHandler (some "B") (some "A") true 0).1 = 2 := by
  decide

/-- C2 amended: a per-call callback is invoked exactly once on send
confirmation without acknowledgment, exactly once on acknowledgment match,
and exactly once on acknowledgment timeout, but exactly twice on an
acknowledgment mismatch (once with the `ResponseError`, once with no
argument). -/
theorem callback_invocation_counts (s : LoopState) (respAck chunk : Option String)
    (listenerCount : Nat) :
    callbackCallCount (noAckWriteCompletion true).1 = 1 ∧
    callbackCallCount (ackTimeoutFire s true listenerCount).2.1 = 1 ∧
    (respAck = chunk →
      callbackCallCount (ackDataHandler respAck chunk true listenerCount).1 = 1) ∧
    (respAck ≠ chunk →
      callbackCallCount (ackDataHandler respAck chunk true listenerCount).1 = 2) := by
  refine ⟨by simp [noAckWriteCompletion, callbackCallCount, isCallbackCall], ?_, ?_, ?_⟩
  · simp [ackTimeoutFire, callbackCallCount_handleEvent]
  · intro h
    simp [ackDataHandler, h, callbackCallCount, isCallbackCall]
  · intro h
    have heq : (ackDataHandler respAck chunk true listenerCount).1 =
        handleEvent "error" (some (FluentError.responseError respAck chunk)) true
            listenerCount ++
          [DispatchAction.callbackCall none] := by
      simp [ackDataHandler, h]
    rw [heq, callbackCallCount_append, callbackCallCount_handleEvent]
    simp [callbackCallCount, isCallbackCall]

/-- C2 witness for the hypotheses of `callback_invocation_counts`. -/
theorem callback_invocation_counts_witness :
    callbackCallCount (ackDataHandler (some "A") (some "A") true 0).1 = 1 ∧
    callbackCallCount (ackDataHandler (some "B") (some "A") true 5).1 = 2 := by
  have h1 := callback_invocation_counts ⟨[], true, none⟩ (some "A") (some "A") 0
  have h2 := callback_invocation_counts ⟨[], true, none⟩ (some "B") (some "A") 5
  exact ⟨h1.2.2.1 rfl, h2.2.2.2 (by decide)⟩

/-- C3 counterexample: submitting `null` as `data` does not fail with
`DataTypeError` — because JavaScript's `typeof null` is `"object"`, the
validation at src/lib/sender.js:60 passes and the item is enqueued. -/
theorem null_data_is_enqueued :
    (emitStep (some "tag") none JsValue.vNull 0 false "" true 0 []).2 =
      EmitOutcome.enqueuedAndConnecting ∧
    (emitStep (some "tag") none JsValue.vNull 0 false "" true 0 []).1 =
      [{ tag := some "tag", time := 0, data := JsValue.vNull, chunk := none,
         hasCallback := true }] := by
  constructor <;> decide

/-- C3 amended: every primitive `data` value except `null` (strings, numbers,
booleans, `undefined`) fails the submit-event operation with `DataTypeError`
— the error reaches the callback/error channel and the item is not enqueued —
while `null`, whose `typeof` is `"object"`, passes validation and is
enqueued. -/
theorem primitive_nonnull_rejected_null_enqueued (v : JsValue)
    (tagPrefix label : Option String) (time : Int) (requireAckResponse : Bool)
    (freshChunk : String) (hasCallback : Bool) (listenerCount : Nat)
    (queue : List PendingItem) (htag : resolveTag tagPrefix label ≠ none) :
    (isPrimitive v = true → v ≠ JsValue.vNull →
      emitStep tagPrefix label v time requireAckResponse freshChunk hasCallback
          listenerCount queue =
        (queue, EmitOutcome.validationError FluentError.dataTypeError
          (handleEvent "error" (some FluentError.dataTypeError) hasCallback
            listenerCount))) ∧
    emitStep tagPrefix label JsValue.vNull time requireAckResponse freshChunk
        hasCallback listenerCount queue =
      (queue ++ [{ tag := resolveTag tagPrefix label, time := time,
                   data := JsValue.vNull,
                   chunk := if requireAckResponse then some freshChunk else none,
                   hasCallback := hasCallback }],
       EmitOutcome.enqueuedAndConnecting) := by
  constructor
  · intro hp hn
    have hty : jsTypeof v ≠ "object" := by
      cases v <;> simp_all [isPrimitive, jsTypeof]
    simp [emitStep, makePacketItem, htag, hty]
  · simp [emitStep, makePacketItem, htag, jsTypeof]

/-- C3 witness for the hypotheses of
`primitive_nonnull_rejected_null_enqueued`. -/
theorem primitive_nonnull_rejected_null_enqueued_witness :
    emitStep (some "t") none (JsValue.vString "x") 0 false "" true 0 [] =
      ([], EmitOutcome.validationError FluentError.dataTypeError
        (handleEvent "error" (some FluentError.dataTypeError) true 0)) ∧
    (emitStep (some "t") none JsValue.vNull 0 false "" true 0 []).2 =
      EmitOutcome.enqueuedAndConnecting := by
  have h := primitive_nonnull_rejected_null_enqueued (JsValue.vString "x")
    (some "t") none 0 false "" true 0 [] (by decide)
  exact ⟨h.1 rfl (by decide), by rw [h.2]⟩

/-- C4 counterexample: constructing the sender with `reconnectInterval: 0`
does not disable auto-reconnect — the constructor's
`options.reconnectInterval || 600000` (src/lib/sender.js:22) replaces the
falsy `0` with the default `600000`, and `_setupErrorHandler`'s guard then
installs the reconnect listener. -/
theorem reconnect_zero_not_disabled :
    mkReconnectInterval (some 0) = 600000 ∧
    setupErrorHandlerInstalls (mkReconnectInterval (some 0)) = true := by
  decide

/-- C4 amended: configuring `reconnectInterval` as `0` (or leaving it unset)
does not disable automatic reconnect — the constructor replaces every falsy
value with the default `600000`, so the stored interval is always nonzero and
the supervisor is always installed; on each error event it resets the flush
flag, waits the stored interval, and re-establishes the connection. -/
theorem reconnect_always_enabled (optionValue : Option Int) :
    mkReconnectInterval optionValue ≠ 0 ∧
    setupErrorHandlerInstalls (mkReconnectInterval optionValue) = true ∧
    errorListenerEffect (mkReconnectInterval optionValue) =
      { resetFlushing := true, delayMs := mkReconnectInterval optionValue,
        reconnects := true } := by
  refine ⟨?_, ?_, rfl⟩ <;>
    rcases optionValue with _ | v <;>
      simp [mkReconnectInterval, setupErrorHandlerInstalls] <;>
        by_cases hv : v = 0 <;> simp [hv]

/-- C5: validation failures (`MissingTag`, `DataTypeError`) are detected
synchronously during the submit-event call, before any enqueue: on every such
failure the send queue is left exactly unchanged, the outcome is the
validation-error dispatch (which never calls `_connect`), and the error raised
is `MissingTag` or `DataTypeError`. -/
theorem validation_never_enqueues_or_connects (tagPrefix label : Option String)
    (data : JsValue) (time : Int) (requireAckResponse : Bool) (freshChunk : String)
    (hasCallback : Bool) (listenerCount : Nat) (queue : List PendingItem)
    (h : resolveTag tagPrefix label = none ∨ jsTypeof data ≠ "object") :
    (emitStep tagPrefix label data time requireAckResponse freshChunk hasCallback
        listenerCount queue).1 = queue ∧
    ∃ e, (e = FluentError.missingTag ∨ e = FluentError.dataTypeError) ∧
      (emitStep tagPrefix label data time requireAckResponse freshChunk hasCallback
          listenerCount queue).2 =
        EmitOutcome.validationError e
          (handleEvent "error" (some e) hasCallback listenerCount) := by
  by_cases ht : resolveTag tagPrefix label = none
  · refine ⟨?_, FluentError.missingTag, Or.inl rfl, ?_⟩ <;>
      simp [emitStep, makePacketItem, ht]
  · have hd : jsTypeof data ≠ "object" := h.resolve_left ht
    refine ⟨?_, FluentError.dataTypeError, Or.inr rfl, ?_⟩ <;>
      simp [emitStep, makePacketItem, ht, hd]

/-- C5 witness for the hypothesis of `validation_never_enqueues_or_connects`. -/
theorem validation_never_enqueues_or_connects_witness :
    (emitStep none none JsValue.vObject 0 false "" false 0 []).1 = [] ∧
    ∃ e, (e = FluentError.missingTag ∨ e = FluentError.dataTypeError) ∧
      (emitStep none none JsValue.vObject 0 false "" false 0 []).2 =
        EmitOutcome.validationError e (handleEvent "error" (some e) false 0) :=
  validation_never_enqueues_or_connects none none JsValue.vObject 0 false "" false 0 []
    (Or.inl (by decide))

/-- C6: accepted submissions are appended to the back of the queue, and a full
flush run writes the queued items in exactly their queue (= submission) order,
each exactly once, with at most one item in flight at a time, ending with the
flush flag cleared. -/
theorem fifo_exactly_once_single_inflight (queue : List PendingItem) :
    writesOf (doFlushSendQueueRun queue).1 = queue ∧
    atMostOneInFlight (doFlushSendQueueRun queue).1 0 = true ∧
    (doFlushSendQueueRun queue).2 = false ∧
    ∀ (p l : Option String) (d : JsValue) (t : Int) (ack : Bool) (ch : String)
      (cb : Bool) (n : Nat) (q : List PendingItem),
      (emitStep p l d t ack ch cb n q).2 = EmitOutcome.enqueuedAndConnecting →
      (emitStep p l d t ack ch cb n q).1 =
        q ++ [{ tag := resolveTag p l, time := t, data := d,
                chunk := if ack then some ch else none, hasCallback := cb }] := by
  refine ⟨?_, ?_, ?_, ?_⟩
  · induction queue with
    | nil => rfl
    | cons item rest ih =>
      simp only [writesOf] at ih
      simp [doFlushSendQueueRun, writesOf, ih]
  · induction queue with
    | nil => rfl
    | cons item rest ih => simp [doFlushSendQueueRun, atMostOneInFlight, ih]
  · induction queue with
    | nil => rfl
    | cons item rest ih => simp [doFlushSendQueueRun, ih]
  · intro p l d t ack ch cb n q hacc
    by_cases ht : resolveTag p l = none
    · simp [emitStep, makePacketItem, ht] at hacc
    · by_cases hd : jsTypeof d = "object"
      · simp [emitStep, makePacketItem, ht, hd]
      · simp [emitStep, makePacketItem, ht, hd] at hacc

/-- C6 witness for the hypothesis of `fifo_exactly_once_single_inflight`. -/
theorem fifo_exactly_once_single_inflight_witness :
    (emitStep (some "t") none JsValue.vObject 7 true "c" false 0 []).1 =
      [{ tag := resolveTag (some "t") none, time := 7, data := JsValue.vObject,
         chunk := some "c", hasCallback := false }] := by
  have h := (fifo_exactly_once_single_inflight []).2.2.2 (some "t") none
    JsValue.vObject 7 true "c" false 0 [] (by decide)
  simpa using h

/-- C7: with acknowledgment enabled and a response arriving before the
timeout, a matching `ack` completes the item with only its callback fired (no
error raised) and the loop continues; a mismatching `ack` raises a
`ResponseError` through the error channel (`_handleEvent`, which passes the
item's callback), then still fires the item's callback, and the loop likewise
continues with the next item. -/
theorem ack_match_mismatch_behavior (respAck chunk : Option String)
    (hasCallback : Bool) (listenerCount : Nat) :
    (respAck = chunk →
      (ackDataHandler respAck chunk hasCallback listenerCount).1 =
        (if hasCallback then [DispatchAction.callbackCall none] else []) ∧
      (ackDataHandler respAck chunk hasCallback listenerCount).2 = true) ∧
    (respAck ≠ chunk →
      (ackDataHandler respAck chunk hasCallback listenerCount).1 =
        handleEvent "error" (some (FluentError.responseError respAck chunk))
            hasCallback listenerCount ++
          (if hasCallback then [DispatchAction.callbackCall none] else []) ∧
      (ackDataHandler respAck chunk hasCallback listenerCount).2 = true) := by
  constructor
  · intro h
    exact ⟨by simp [ackDataHandler, h], rfl⟩
  · intro h
    exact ⟨by simp [ackDataHandler, h], rfl⟩

/-- C7 witness for the hypotheses of `ack_match_mismatch_behavior`. -/
theorem ack_match_mismatch_behavior_witness :
    (ackDataHandler (some "A") (some "A") true 1).1 =
      [DispatchAction.callbackCall none] ∧
    (ackDataHandler (some "B") (some "A") true 1).1 =
      handleEvent "error" (some (FluentError.responseError (some "B") (some "A")))
          true 1 ++
        [DispatchAction.callbackCall none] := by
  have h1 := (ack_match_mismatch_behavior (some "A") (some "A") true 1).1 rfl
  have h2 := (ack_match_mismatch_behavior (some "B") (some "A") true 1).2 (by decide)
  exact ⟨by simpa using h1.1, by simpa using h2.1⟩

/-- C8: tag resolution is total over (configured tag prefix, label): both
present (truthy) gives `prefix.label`, only the prefix gives the prefix, only
the label gives the label, and neither yields no tag, in which case the
submission fails with `MissingTag`. -/
theorem tag_resolution_total (tagPrefix label : Option String) (data : JsValue)
    (time : Int) (requireAckResponse : Bool) (freshChunk : String)
    (hasCallback : Bool) (listenerCount : Nat) (queue : List PendingItem) :
    (truthyStr tagPrefix = true → truthyStr label = true →
      resolveTag tagPrefix label =
        some (tagPrefix.getD "" ++ "." ++ label.getD "")) ∧
    (truthyStr tagPrefix = true → truthyStr label = false →
      resolveTag tagPrefix label = tagPrefix) ∧
    (truthyStr tagPrefix = false → truthyStr label = true →
      resolveTag tagPrefix label = label) ∧
    (truthyStr tagPrefix = false → truthyStr label = false →
      resolveTag tagPrefix label = none) ∧
    (resolveTag tagPrefix label = none →
      emitStep tagPrefix label data time requireAckResponse freshChunk hasCallback
          listenerCount queue =
        (queue, EmitOutcome.validationError FluentError.missingTag
          (handleEvent "error" (some FluentError.missingTag) hasCallback
            listenerCount))) := by
  refine ⟨?_, ?_, ?_, ?_, ?_⟩
  · intro hp hl; simp [resolveTag, hp, hl]
  · intro hp hl; simp [resolveTag, hp, hl]
  · intro hp hl; simp [resolveTag, hp, hl]
  · intro hp hl; simp [resolveTag, hp, hl]
  · intro h; simp [emitStep, makePacketItem, h]

/-- C8 witness for the hypotheses of `tag_resolution_total`. -/
theorem tag_resolution_total_witness :
    resolveTag (some "pre") (some "lab") = some "pre.lab" ∧
    resolveTag (some "pre") none = some "pre" ∧
    resolveTag none (some "lab") = some "lab" ∧
    resolveTag none none = none ∧
    emitStep none none JsValue.vObject 0 false "" false 0 [] =
      ([], EmitOutcome.validationError FluentError.missingTag
        (handleEvent "error" (some FluentError.missingTag) false 0)) := by
  have h := tag_resolution_total (some "pre") (some "lab") JsValue.vObject 0 false
    "" false 0 []
  have h2 := tag_resolution_total (some "pre") none JsValue.vObject 0 false
    "" false 0 []
  have h3 := tag_resolution_total none (some "lab") JsValue.vObject 0 false
    "" false 0 []
  have h4 := tag_resolution_total none none JsValue.vObject 0 false "" false 0 []
  exact ⟨by simpa using h.1 (by decide) (by decide),
    h2.2.1 (by decide) (by decide),
    h3.2.2.1 (by decide) (by decide),
    h4.2.2.2.1 (by decide) (by decide),
    h4.2.2.2.2 (h4.2.2.2.1 (by decide) (by decide))⟩

/-- C9: in `_handleEvent`, a supplied per-call callback is invoked first
(synchronously, with the payload — the error in error cases — as its
argument); the broadcast event is emitted afterward exactly when at least one
subscriber is registered for that signal; with no callback and no subscriber
the dispatch performs no action at all (the error is silently dropped and
nothing throws). -/
theorem dispatch_callback_first_emit_guarded (signal : String)
    (payload : Option FluentError) (hasCallback : Bool) (listenerCount : Nat) :
    (hasCallback = true →
      (handleEvent signal payload hasCallback listenerCount).head? =
        some (DispatchAction.callbackCall payload)) ∧
    ((∃ e, DispatchAction.emitEvent signal e ∈
        handleEvent signal payload hasCallback listenerCount) ↔
      0 < listenerCount) ∧
    handleEvent signal payload false 0 = [] := by
  refine ⟨?_, ?_, by simp [handleEvent]⟩
  · intro hc
    rcases Nat.eq_zero_or_pos listenerCount with h | h <;>
      simp [handleEvent, hc, h, Nat.pos_iff_ne_zero.mp]
  · cases hasCallback <;> rcases Nat.eq_zero_or_pos listenerCount with h | h <;>
      simp [handleEvent, h, Nat.pos_iff_ne_zero.mp]

/-- C9 witness for the hypothesis of `dispatch_callback_first_emit_guarded`. -/
theorem dispatch_callback_first_emit_guarded_witness :
    (handleEvent "error" (some FluentError.responseTimeout) true 0).head? =
      some (DispatchAction.callbackCall (some FluentError.responseTimeout)) :=
  (dispatch_callback_first_emit_guarded "error" (some FluentError.responseTimeout)
    true 0).1 rfl

/-- C10: when the acknowledgment timeout fires, the handler leaves the sender
state (queue, flush flag, socket) untouched and does not re-enter the flush
loop; while the flush flag remains set, every later `flush()` call returns
without scheduling anything; the reconnect supervisor's `error` listener is
the reset path, clearing the flag without touching the queue. -/
theorem ack_timeout_stalls_flush (s : LoopState) (hasCallback : Bool)
    (listenerCount : Nat) :
    (ackTimeoutFire s hasCallback listenerCount).1 = s ∧
    (ackTimeoutFire s hasCallback listenerCount).2.2 = false ∧
    (s.flushingSendQueue = true → flushSendQueueCall s = (s, false)) ∧
    (supervisorErrorListenerState s).flushingSendQueue = false ∧
    (supervisorErrorListenerState s).queue = s.queue := by
  refine ⟨rfl, rfl, ?_, rfl, rfl⟩
  intro h
  simp [flushSendQueueCall, h]

/-- C10 witness for the hypothesis of `ack_timeout_stalls_flush`. -/
theorem ack_timeout_stalls_flush_witness :
    flushSendQueueCall ⟨[], true, some ⟨true⟩⟩ = (⟨[], true, some ⟨true⟩⟩, false) :=
  (ack_timeout_stalls_flush ⟨[], true, some ⟨true⟩⟩ true 0).2.2.1 rfl

end FluentSenderModel
